import Mathlib

/-!
Verification of the per-branch reconciliation logic of the git-up tool
(`src/main.rs`). The external `git` process invocations are modelled by an
environment oracle `GitEnv`; the decision logic of `process_branch` and the
driver loop of `main` are translated function by function from the source.
Console output is modelled as a list of printed lines (colour codes dropped),
mutating git commands as an explicit action trace, and the `a[0..7]` string
slice as a panic when the identifier is too short.
-/

namespace GitUp

/-- Environment oracle for the external git invocations of `main.rs`. Each
field models the observable result of one external command: `symbolic_full_name
name` is `git rev-parse --symbolic-full-name name` (`none` when the process
fails or exits nonzero, as in `git_symbolic_full_name`); `has_file p` is the
tracking-file existence check of `git_has_file` (a process failure is already
collapsed to `false` there); `rev_parse_range a b` is the stdout line list of
`git rev-parse --quiet a b` (`.error` when the process itself fails to run);
`is_ancestor a b` is the success of `git merge-base --is-ancestor a b` (a
process failure is collapsed to `false`, as in `git_is_ancestor`); the four
`_ok` fields give the success of the corresponding mutating git commands. -/
structure GitEnv where
  symbolic_full_name : String → Option String
  has_file : String → Bool
  rev_parse_range : String → String → Except String (List String)
  is_ancestor : String → String → Bool
  fast_forward_ok : String → Bool
  update_ref_ok : String → String → Bool
  checkout_ok : String → Bool
  delete_branch_ok : String → Bool

/-- The `Range` struct of `main.rs`: the two resolved commit identifiers,
`a` the local tip and `b` the remote (or default-branch) tip. -/
structure Range where
  a : String
  b : String
deriving DecidableEq, Repr

/-- `Range::is_identical` from `main.rs`. -/
def Range.is_identical (r : Range) : Bool := r.a == r.b

/-- `Range::is_ancestor` from `main.rs`, which calls `git_is_ancestor` on the
two resolved identifiers. -/
def Range.is_ancestor (env : GitEnv) (r : Range) : Bool := env.is_ancestor r.a r.b

/-- `git_range` from `main.rs`: run `git rev-parse --quiet a b`, require
exactly two stdout lines, and build a `Range` from them; otherwise report the
parse error. -/
def git_range (env : GitEnv) (a b : String) : Except String Range :=
  match env.rev_parse_range a b with
  | .error e => .error e
  | .ok [x, y] => .ok ⟨x, y⟩
  | .ok lines =>
      .error ("Can\x27t parse range " ++ a ++ ".." ++ b ++ "; Expected 2 lines, got "
        ++ toString lines.length)

/-- `git_delete_branch` from `main.rs`: `git branch -D --quiet`. -/
def git_delete_branch (env : GitEnv) (local_branch : String) : Except String Unit :=
  if env.delete_branch_ok local_branch then .ok () else .error "Failed to delete branch"

/-- `git_checkout` from `main.rs`: `git checkout --quiet`. -/
def git_checkout (env : GitEnv) (branch : String) : Except String Unit :=
  if env.checkout_ok branch then .ok () else .error "Failed to checkout branch"

/-- `git_update_ref` from `main.rs`: `git update-ref full_branch remote_branch`. -/
def git_update_ref (env : GitEnv) (full_branch remote_branch : String) : Except String Unit :=
  if env.update_ref_ok full_branch remote_branch then .ok ()
  else .error "Failed to update ref"

/-- `git_fast_forward_merge` from `main.rs`: `git merge --ff-only --quiet`. -/
def git_fast_forward_merge (env : GitEnv) (branch : String) : Except String Unit :=
  if env.fast_forward_ok branch then .ok () else .error "Failed to fast forward merge ref"

/-- One mutating git command invoked by `process_branch`. -/
inductive GitAction where
  | fastForwardMerge (ref : String)
  | updateRef (fullRef target : String)
  | checkout (branch : String)
  | deleteBranch (name : String)
deriving DecidableEq, Repr

/-- The result of one `process_branch` call: `ok` mirrors `Ok(Option<String>)`,
`err` a propagated `anyhow` error, and `panic` the Rust panic raised by the
`a[0..7]` slice on a short identifier. -/
inductive ProcOutcome where
  | ok (newCurrent : Option String)
  | err (msg : String)
  | panic
deriving DecidableEq, Repr

/-- The observable behaviour of one `process_branch` call: its outcome, the
lines it printed (in order, colour codes dropped) and the mutating git
commands it invoked (in order). -/
structure ProcResult where
  outcome : ProcOutcome
  output : List String
  actions : List GitAction
deriving DecidableEq, Repr

/-- The classification phase of `process_branch` (`main.rs` lines 120-141):
starting from the default-convention remote ref and `gone = false`, consult
the branch-to-remote mapping, the symbolic upstream resolution and the
tracking-file check, and return the final `(remote_branch, gone)` pair. -/
def resolveRemoteBranch (env : GitEnv) (branches_to_remotes : String → Option String)
    (local_branch remote : String) : String × Bool :=
  match branches_to_remotes local_branch with
  | some local_branch_remote_name =>
      if local_branch_remote_name == remote then
        match env.symbolic_full_name (local_branch ++ "@{upstream}") with
        | some sfn => (sfn, false)
        | none => ("", true)
      else if env.has_file ("refs/remotes/" ++ remote ++ "/" ++ local_branch) then
        ("refs/remotes/" ++ remote ++ "/" ++ local_branch, false)
      else ("", false)
  | none => ("refs/remotes/" ++ remote ++ "/" ++ local_branch, false)

/-- The branch status of the specification, read off from the
`(remote_branch, gone)` pair exactly as the if-chain of `process_branch`
dispatches on it: a nonempty `remote_branch` is `RemoteExists`, an empty one
with `gone` set is `RemoteGone`, and the remainder is `Unknown`. -/
inductive BranchStatus where
  | remoteExists (ref : String)
  | remoteGone
  | unknown
deriving DecidableEq, Repr

/-- Classification of one local branch, following the dispatch of
`process_branch` on the `(remote_branch, gone)` pair. -/
def classify (env : GitEnv) (branches_to_remotes : String → Option String)
    (local_branch remote : String) : BranchStatus :=
  if !(resolveRemoteBranch env branches_to_remotes local_branch remote).1.isEmpty then
    .remoteExists (resolveRemoteBranch env branches_to_remotes local_branch remote).1
  else if (resolveRemoteBranch env branches_to_remotes local_branch remote).2 then
    .remoteGone
  else .unknown

/-- The `diff.a[0..7]` byte slice used in the Updated/Deleted messages: it is
defined only when the identifier has at least 7 characters, and `none` models
the Rust panic on a shorter string. -/
def shortId (s : String) : Option String :=
  if 7 ≤ s.length then some (String.take s 7) else none

/-- The fast-forward-or-repoint step of `process_branch` (`main.rs` lines
149-175): the error lines it prints (first component) and the mutating action
it invokes (second component), chosen by whether the branch is the current
branch. -/
def updateStep (env : GitEnv) (local_branch current_branch full_branch remote_branch : String) :
    List String × List GitAction :=
  if local_branch == current_branch then
    (match git_fast_forward_merge env remote_branch with
     | .error e => ["Error: " ++ local_branch ++ " failed to fast forward merge: " ++ e]
     | .ok _ => [],
     [GitAction.fastForwardMerge remote_branch])
  else
    (match git_update_ref env full_branch remote_branch with
     | .error e => ["Error: " ++ local_branch ++ " failed to update ref: " ++ e]
     | .ok _ => [],
     [GitAction.updateRef full_branch remote_branch])

/-- The `RemoteExists` arm of `process_branch` (`main.rs` lines 143-192):
resolve the range, return silently when identical, fast-forward or repoint
when the local tip is an ancestor of the remote tip (printing the Updated
message unconditionally afterwards, which panics on a short identifier), and
warn about unpushed commits otherwise. -/
def onRemoteExists (env : GitEnv)
    (local_branch current_branch full_branch remote_branch : String) : ProcResult :=
  match git_range env full_branch remote_branch with
  | .error e => ⟨.err e, [], []⟩
  | .ok diff =>
      if diff.is_identical then ⟨.ok none, [], []⟩
      else if diff.is_ancestor env then
        match shortId diff.a with
        | none =>
            ⟨.panic,
              (updateStep env local_branch current_branch full_branch remote_branch).1,
              (updateStep env local_branch current_branch full_branch remote_branch).2⟩
        | some s =>
            ⟨.ok none,
              (updateStep env local_branch current_branch full_branch remote_branch).1
                ++ ["Updated branch " ++ local_branch ++ " (was " ++ s ++ ")."],
              (updateStep env local_branch current_branch full_branch remote_branch).2⟩
      else
        ⟨.ok none, ["Warning: " ++ local_branch ++ " seems to contain unpushed commits"], []⟩

/-- The `RemoteGone` arm of `process_branch` (`main.rs` lines 193-213):
resolve the range against the full default branch ref; when the local tip is
an ancestor of the default tip, check out the default branch first if the
branch is current, delete the branch, print the Deleted message (which panics
on a short identifier), and return the new current branch when it changed;
otherwise return silently. -/
def onRemoteGone (env : GitEnv) (local_branch current_branch default_branch
    full_branch full_default_branch : String) : ProcResult :=
  match git_range env full_branch full_default_branch with
  | .error e => ⟨.err e, [], []⟩
  | .ok diff =>
      if diff.is_ancestor env then
        if local_branch == current_branch then
          match git_checkout env default_branch with
          | .error e => ⟨.err e, [], [GitAction.checkout default_branch]⟩
          | .ok _ =>
              match git_delete_branch env local_branch with
              | .error e =>
                  ⟨.err e, [],
                    [GitAction.checkout default_branch, GitAction.deleteBranch local_branch]⟩
              | .ok _ =>
                  match shortId diff.a with
                  | none =>
                      ⟨.panic, [],
                        [GitAction.checkout default_branch,
                          GitAction.deleteBranch local_branch]⟩
                  | some s =>
                      ⟨.ok (some default_branch),
                        ["Deleted branch " ++ local_branch ++ " (was " ++ s ++ ")."],
                        [GitAction.checkout default_branch,
                          GitAction.deleteBranch local_branch]⟩
        else
          match git_delete_branch env local_branch with
          | .error e => ⟨.err e, [], [GitAction.deleteBranch local_branch]⟩
          | .ok _ =>
              match shortId diff.a with
              | none => ⟨.panic, [], [GitAction.deleteBranch local_branch]⟩
              | some s =>
                  ⟨.ok none,
                    ["Deleted branch " ++ local_branch ++ " (was " ++ s ++ ")."],
                    [GitAction.deleteBranch local_branch]⟩
      else ⟨.ok none, [], []⟩

/-- The final `else` arm of `process_branch` (`main.rs` lines 214-224), reached
when `remote_branch` is empty and `gone` is false: print the
deleted-but-unmerged warning naming the sync remote and the tracked current
branch. -/
def onUnknown (local_branch remote current_branch : String) : ProcResult :=
  ⟨.ok none,
    ["Warning: \x27" ++ local_branch ++ "\x27 was deleted on " ++ remote
      ++ ", but appears not merged into \x27" ++ current_branch ++ "\x27"],
    []⟩

/-- `process_branch` from `main.rs`: classify the branch via
`resolveRemoteBranch` and dispatch on the `(remote_branch, gone)` pair. -/
def process_branch (env : GitEnv) (local_branch remote current_branch : String)
    (branches_to_remotes : String → Option String)
    (default_branch full_default_branch : String) : ProcResult :=
  if !(resolveRemoteBranch env branches_to_remotes local_branch remote).1.isEmpty then
    onRemoteExists env local_branch current_branch ("refs/heads/" ++ local_branch)
      (resolveRemoteBranch env branches_to_remotes local_branch remote).1
  else if (resolveRemoteBranch env branches_to_remotes local_branch remote).2 then
    onRemoteGone env local_branch current_branch default_branch
      ("refs/heads/" ++ local_branch) full_default_branch
  else onUnknown local_branch remote current_branch

/-- What the driver records for one processed branch: its name, the
`process_branch` outcome, the lines printed while it was processed (the
driver's own error line included) and the actions invoked for it. -/
structure BranchReport where
  branch : String
  outcome : ProcOutcome
  output : List String
  actions : List GitAction
deriving DecidableEq, Repr

/-- The per-branch loop of `main` (`main.rs` lines 83-107): process each
branch in order, update the tracked current branch on `Ok(Some(branch))`,
print the driver error line on `Err` and continue; a panic aborts the whole
run (`none`). Returns the per-branch reports and the final current branch. -/
def runLoop (env : GitEnv) (remote : String) (branches_to_remotes : String → Option String)
    (default_branch full_default_branch : String) :
    String → List String → Option (List BranchReport × String)
  | current_branch, [] => some ([], current_branch)
  | current_branch, local_branch :: rest =>
      match process_branch env local_branch remote current_branch branches_to_remotes
          default_branch full_default_branch with
      | ⟨.panic, _, _⟩ => none
      | ⟨.ok newCur, out, acts⟩ =>
          match runLoop env remote branches_to_remotes default_branch full_default_branch
              (newCur.getD current_branch) rest with
          | none => none
          | some (reports, finalCur) =>
              some (⟨local_branch, .ok newCur, out, acts⟩ :: reports, finalCur)
      | ⟨.err e, out, acts⟩ =>
          match runLoop env remote branches_to_remotes default_branch full_default_branch
              current_branch rest with
          | none => none
          | some (reports, finalCur) =>
              some (⟨local_branch, .err e,
                out ++ ["Error: " ++ local_branch ++ " failed to process branch: " ++ e],
                acts⟩ :: reports, finalCur)

/-- Environment of the whole run: the git oracle plus the results of the three
setup steps of `main` (the fetch at lines 22-35, the branch-to-remote config
read at lines 38-65 and the branch listing at lines 68-80). The parsing of
the config and listing stdout into a map and a list is plumbing performed
before the loop; the environment supplies the parsed results, with `.error`
carrying the propagated setup error message. -/
structure MainEnv where
  git : GitEnv
  fetchResult : Except String Unit
  configResult : Except String (String → Option String)
  branchesResult : Except String (List String)

/-- Result of the whole run: a setup error aborts before the loop, a panic
aborts inside it, and otherwise the run ends in `ok` (as `main` returns
`Ok(())` unconditionally after the loop). -/
inductive MainResult where
  | setupError (msg : String)
  | panicked
  | ok (reports : List BranchReport) (finalCurrent : String)
deriving Repr

/-- Wrap the loop result as the run result. -/
def loopResult (o : Option (List BranchReport × String)) : MainResult :=
  match o with
  | none => .panicked
  | some (reports, finalCur) => .ok reports finalCur

/-- The hardcoded sync remote of `main.rs` line 12. -/
def remoteName : String := "origin"

/-- The initialisation of `current_branch` at `main.rs` line 15: the empty
string, never replaced by a repository read. -/
def initialCurrentBranch : String := ""

/-- The hardcoded default branch of `main.rs` line 18. -/
def defaultBranchName : String := "main"

/-- The full default branch ref of `main.rs` line 19. -/
def fullDefaultBranchName : String := "refs/remotes/" ++ remoteName ++ "/" ++ defaultBranchName

/-- `main` from `main.rs`: run the three setup steps (each `?` aborting with a
setup error), then the per-branch loop starting from `initialCurrentBranch`. -/
def mainRun (env : MainEnv) : MainResult :=
  match env.fetchResult with
  | .error e => .setupError e
  | .ok _ =>
      match env.configResult with
      | .error e => .setupError e
      | .ok branches_to_remotes =>
          match env.branchesResult with
          | .error e => .setupError e
          | .ok local_branches =>
              loopResult (runLoop env.git remoteName branches_to_remotes defaultBranchName
                fullDefaultBranchName initialCurrentBranch local_branches)

/-- A base oracle for concrete test repositories: nothing resolves, no
tracking file exists, no ancestry holds, and every mutating command
succeeds. Concrete environments below override individual fields. -/
def envBase : GitEnv where
  symbolic_full_name := fun _ => none
  has_file := fun _ => false
  rev_parse_range := fun _ _ => .error "no rev-parse"
  is_ancestor := fun _ _ => false
  fast_forward_ok := fun _ => true
  update_ref_ok := fun _ _ => true
  checkout_ok := fun _ => true
  delete_branch_ok := fun _ => true

/-- Mapping of a repository in which branch "feature" tracks the remote
"upstream", which differs from the sync remote "origin". -/
def btrUnknown : String → Option String :=
  fun b => if b == "feature" then some "upstream" else none

/-- Mapping of a repository in which branch "wip" tracks the sync remote
"origin". -/
def btrOrigin : String → Option String :=
  fun b => if b == "wip" then some "origin" else none

/-- Oracle of a repository in which refs resolve to two distinct identifiers
with no ancestry between them (and no upstream resolves, so a branch mapped to
the sync remote is gone). -/
def envGoneUnmerged : GitEnv :=
  { envBase with
    rev_parse_range := fun _ _ => .ok ["aaaaaaaaaa", "bbbbbbbbbb"],
    is_ancestor := fun _ _ => false }

/-- Mapping of a repository in which branch "topic" tracks the sync remote
"origin". -/
def btrTopic : String → Option String :=
  fun b => if b == "topic" then some "origin" else none

/-- Oracle of a repository in which refs resolve to two distinct identifiers,
the first an ancestor of the second, and no upstream resolves. -/
def envGoneMerged : GitEnv :=
  { envBase with
    rev_parse_range := fun _ _ => .ok ["aaaaaaaa", "bbbbbbbb"],
    is_ancestor := fun _ _ => true }

/-- Mapping of a repository in which branch "dev" tracks the sync remote
"origin". -/
def btrDev : String → Option String :=
  fun b => if b == "dev" then some "origin" else none

/-- Oracle of a repository in which the upstream of any branch resolves to
the remote ref of "dev", the range resolves to distinct identifiers in
ancestor relation, and the fast-forward merge fails. -/
def envFFFail : GitEnv :=
  { envBase with
    symbolic_full_name := fun _ => some "refs/remotes/origin/dev",
    rev_parse_range := fun _ _ => .ok ["1234567aa", "89abcdef0"],
    is_ancestor := fun _ _ => true,
    fast_forward_ok := fun _ => false }

/-- Oracle of a repository in which every range resolves to the same
identifier on both sides. -/
def envSynced : GitEnv :=
  { envBase with rev_parse_range := fun _ _ => .ok ["dddddddd", "dddddddd"] }

/-- Oracle of a repository in which every range resolves to two distinct
identifiers in ancestor relation. -/
def envAhead : GitEnv :=
  { envBase with
    rev_parse_range := fun _ _ => .ok ["eeeeeeee", "ffffffff"],
    is_ancestor := fun _ _ => true }

/-- Oracle of a repository in which the local side of every range resolves to
an identifier of only 3 characters, in ancestor relation with the remote
side. -/
def envShort : GitEnv :=
  { envBase with
    rev_parse_range := fun _ _ => .ok ["abc", "defdefdef"],
    is_ancestor := fun _ _ => true }

/-- Oracle of a repository in which resolving the range of branch "bad" fails
with the message "boom" while every other range resolves identically. -/
def envLoop : GitEnv :=
  { envBase with
    rev_parse_range := fun a _ =>
      if a == "refs/heads/bad" then .error "boom" else .ok ["cccccccc", "cccccccc"] }

/-- A run environment whose setup steps all succeed over an empty branch
list; the git oracle answers nothing, as for a freshly detached repository. -/
def mainEnvDetached : MainEnv :=
  { git := envBase, fetchResult := .ok (), configResult := .ok (fun _ => none),
    branchesResult := .ok [] }

/-- A run environment whose setup steps succeed, listing the branches "bad"
(whose range resolution fails) and "good" (already synced). -/
def mainEnvLoop : MainEnv :=
  { git := envLoop, fetchResult := .ok (), configResult := .ok (fun _ => none),
    branchesResult := .ok ["bad", "good"] }

/-- When classification yields `RemoteExists r`, `process_branch` takes the
first arm with `remote_branch = r`. -/
theorem process_branch_remoteExists {env : GitEnv} {btr : String → Option String}
    {local_branch remote current_branch default_branch full_default_branch r : String}
    (h : classify env btr local_branch remote = .remoteExists r) :
    process_branch env local_branch remote current_branch btr default_branch
        full_default_branch
      = onRemoteExists env local_branch current_branch ("refs/heads/" ++ local_branch) r := by
  unfold classify at h
  unfold process_branch
  split at h
  case isTrue hcond =>
    rw [if_pos hcond]
    simp only [BranchStatus.remoteExists.injEq] at h
    rw [h]
  case isFalse hcond =>
    split at h <;> cases h

/-- When classification yields `RemoteGone`, `process_branch` takes the
second arm. -/
theorem process_branch_remoteGone {env : GitEnv} {btr : String → Option String}
    {local_branch remote current_branch default_branch full_default_branch : String}
    (h : classify env btr local_branch remote = .remoteGone) :
    process_branch env local_branch remote current_branch btr default_branch
        full_default_branch
      = onRemoteGone env local_branch current_branch default_branch
          ("refs/heads/" ++ local_branch) full_default_branch := by
  unfold classify at h
  unfold process_branch
  split at h
  case isTrue hcond => cases h
  case isFalse hcond =>
    rw [if_neg hcond]
    split at h
    case isTrue hgone => rw [if_pos hgone]
    case isFalse hgone => cases h

/-- The action component of `updateStep`: fast-forward for the current branch,
update-ref otherwise. -/
theorem updateStep_actions (env : GitEnv)
    (local_branch current_branch full_branch remote_branch : String) :
    (updateStep env local_branch current_branch full_branch remote_branch).2
      = if local_branch == current_branch then [GitAction.fastForwardMerge remote_branch]
        else [GitAction.updateRef full_branch remote_branch] := by
  unfold updateStep
  split <;> rfl

/-- The `RemoteExists` arm never reports a new current branch. -/
theorem onRemoteExists_not_ok_some (env : GitEnv)
    (local_branch current_branch full_branch remote_branch nb : String) :
    (onRemoteExists env local_branch current_branch full_branch remote_branch).outcome
      ≠ .ok (some nb) := by
  unfold onRemoteExists
  intro h
  cases hr : git_range env full_branch remote_branch with
  | error e => rw [hr] at h; simp at h
  | ok diff =>
      rw [hr] at h
      dsimp only at h
      by_cases hid : diff.is_identical = true
      · rw [if_pos hid] at h; simp at h
      · rw [if_neg hid] at h
        by_cases hanc : diff.is_ancestor env = true
        · rw [if_pos hanc] at h
          cases hs : shortId diff.a with
          | none => rw [hs] at h; simp at h
          | some s => rw [hs] at h; simp at h
        · rw [if_neg hanc] at h; simp at h

/-- Inversion of the `RemoteGone` arm: a new current branch is reported only
after a successful checkout of the default branch followed by a successful
delete of the current branch in the ancestor case, and it is the default
branch name. -/
theorem onRemoteGone_ok_some {env : GitEnv} {local_branch current_branch default_branch
    full_branch full_default_branch nb : String}
    (h : (onRemoteGone env local_branch current_branch default_branch full_branch
        full_default_branch).outcome = .ok (some nb)) :
    nb = default_branch ∧ local_branch = current_branch ∧
    ∃ diff s, git_range env full_branch full_default_branch = .ok diff ∧
      diff.is_ancestor env = true ∧ shortId diff.a = some s ∧
      onRemoteGone env local_branch current_branch default_branch full_branch
          full_default_branch
        = ⟨.ok (some default_branch),
            ["Deleted branch " ++ local_branch ++ " (was " ++ s ++ ")."],
            [GitAction.checkout default_branch, GitAction.deleteBranch local_branch]⟩ := by
  unfold onRemoteGone at h ⊢
  cases hr : git_range env full_branch full_default_branch with
  | error e => rw [hr] at h; simp at h
  | ok diff =>
      rw [hr] at h
      dsimp only at h
      by_cases hanc : diff.is_ancestor env = true
      · rw [if_pos hanc] at h
        by_cases hcur : (local_branch == current_branch) = true
        · rw [if_pos hcur] at h
          cases hco : git_checkout env default_branch with
          | error e => rw [hco] at h; simp at h
          | ok u =>
              rw [hco] at h
              dsimp only at h
              cases hdel : git_delete_branch env local_branch with
              | error e => rw [hdel] at h; simp at h
              | ok u2 =>
                  rw [hdel] at h
                  dsimp only at h
                  cases hs : shortId diff.a with
                  | none => rw [hs] at h; simp at h
                  | some s =>
                      rw [hs] at h
                      simp only [ProcOutcome.ok.injEq, Option.some.injEq] at h
                      refine ⟨h.symm, eq_of_beq hcur, diff, s, rfl, hanc, hs, ?_⟩
                      dsimp only
                      rw [if_pos hanc, if_pos hcur, hs]
        · rw [if_neg hcur] at h
          cases hdel : git_delete_branch env local_branch with
          | error e => rw [hdel] at h; simp at h
          | ok u2 =>
              rw [hdel] at h
              dsimp only at h
              cases hs : shortId diff.a with
              | none => rw [hs] at h; simp at h
              | some s => rw [hs] at h; simp at h
      · rw [if_neg hanc] at h
        simp at h

/-- Inversion of `process_branch`: it returns `Ok(Some nb)` only in the
`RemoteGone`, ancestor, current-branch case, with `nb` the default branch
name, after the checkout action followed by the delete action. -/
theorem process_branch_ok_some {env : GitEnv} {btr : String → Option String}
    {local_branch remote current_branch default_branch full_default_branch nb : String}
    (h : (process_branch env local_branch remote current_branch btr default_branch
        full_default_branch).outcome = .ok (some nb)) :
    nb = default_branch ∧
    classify env btr local_branch remote = .remoteGone ∧
    local_branch = current_branch ∧
    ∃ diff s, git_range env ("refs/heads/" ++ local_branch) full_default_branch = .ok diff ∧
      diff.is_ancestor env = true ∧ shortId diff.a = some s ∧
      process_branch env local_branch remote current_branch btr default_branch
          full_default_branch
        = ⟨.ok (some default_branch),
            ["Deleted branch " ++ local_branch ++ " (was " ++ s ++ ")."],
            [GitAction.checkout default_branch, GitAction.deleteBranch local_branch]⟩ := by
  by_cases h1 : (!(resolveRemoteBranch env btr local_branch remote).1.isEmpty) = true
  · rw [process_branch, if_pos h1] at h
    exact absurd h (onRemoteExists_not_ok_some env local_branch current_branch
      ("refs/heads/" ++ local_branch)
      (resolveRemoteBranch env btr local_branch remote).1 nb)
  · by_cases h2 : (resolveRemoteBranch env btr local_branch remote).2 = true
    · have hclass : classify env btr local_branch remote = .remoteGone := by
        unfold classify
        rw [if_neg h1, if_pos h2]
      rw [process_branch_remoteGone hclass] at h
      obtain ⟨hnb, hcur, diff, s, hr, hanc, hs, heq⟩ := onRemoteGone_ok_some h
      exact ⟨hnb, hclass, hcur, diff, s, hr, hanc, hs,
        by rw [process_branch_remoteGone hclass, heq]⟩
    · rw [process_branch, if_neg h1, if_neg h2] at h
      simp [onUnknown] at h

/-- The reports of a completed loop run cover the branch list in order, and
every branch whose processing propagated an error carries the driver error
line naming the branch and the underlying cause. -/
theorem runLoop_reports (env : GitEnv) (remote : String)
    (btr : String → Option String) (default_branch full_default_branch : String) :
    ∀ (branches : List String) (current_branch : String) (reports : List BranchReport)
      (finalCur : String),
      runLoop env remote btr default_branch full_default_branch current_branch branches
        = some (reports, finalCur) →
      reports.map (fun r => r.branch) = branches ∧
      ∀ r, r ∈ reports → ∀ e, r.outcome = .err e →
        ("Error: " ++ r.branch ++ " failed to process branch: " ++ e) ∈ r.output := by
  intro branches
  induction branches with
  | nil =>
      intro cur reports finalCur h
      simp only [runLoop, Option.some.injEq, Prod.mk.injEq] at h
      obtain ⟨h1, h2⟩ := h
      subst h1
      simp
  | cons b rest ih =>
      intro cur reports finalCur h
      rw [runLoop] at h
      cases hpb : process_branch env b remote cur btr default_branch full_default_branch with
      | mk outcome out acts =>
          rw [hpb] at h
          cases outcome with
          | panic => simp at h
          | ok newCur =>
              dsimp only at h
              cases hrl : runLoop env remote btr default_branch full_default_branch
                  (newCur.getD cur) rest with
              | none => rw [hrl] at h; simp at h
              | some p =>
                  obtain ⟨reports0, f0⟩ := p
                  rw [hrl] at h
                  simp only [Option.some.injEq, Prod.mk.injEq] at h
                  obtain ⟨h1, h2⟩ := h
                  subst h1
                  obtain ⟨hmap, hprop⟩ := ih (newCur.getD cur) reports0 f0 hrl
                  constructor
                  · simp [hmap]
                  · intro r hr e hout
                    rcases List.mem_cons.mp hr with hhead | htail
                    · subst hhead
                      cases hout
                    · exact hprop r htail e hout
          | err e0 =>
              dsimp only at h
              cases hrl : runLoop env remote btr default_branch full_default_branch cur rest with
              | none => rw [hrl] at h; simp at h
              | some p =>
                  obtain ⟨reports0, f0⟩ := p
                  rw [hrl] at h
                  simp only [Option.some.injEq, Prod.mk.injEq] at h
                  obtain ⟨h1, h2⟩ := h
                  subst h1
                  obtain ⟨hmap, hprop⟩ := ih cur reports0 f0 hrl
                  constructor
                  · simp [hmap]
                  · intro r hr e hout
                    rcases List.mem_cons.mp hr with hhead | htail
                    · subst hhead
                      simp only [ProcOutcome.err.injEq] at hout
                      subst hout
                      simp
                    · exact hprop r htail e hout

/-- Claim C1, evaluated at a failing input: branch "feature" is classified
Unknown (its configured remote "upstream" differs from the sync remote
"origin" and the default-convention tracking file does not exist), yet
`process_branch` prints a warning line claiming the branch was deleted on the
sync remote, contradicting the claimed silence of the Unknown case. No
mutating action is invoked and the outcome is `Ok(None)`. -/
theorem C1_unknown_prints_warning :
    classify envBase btrUnknown "feature" "origin" = .unknown ∧
    process_branch envBase "feature" "origin" "" btrUnknown "main"
        "refs/remotes/origin/main"
      = ⟨.ok none,
          ["Warning: \x27feature\x27 was deleted on origin, but appears not merged into \x27\x27"],
          []⟩ := by
  constructor <;> rfl

/-- Claim C2, evaluated at a failing input: branch "wip" has status RemoteGone
(its upstream no longer resolves) and its tip is not an ancestor of the
default branch; `process_branch` never invokes delete (empty action trace) but
also prints nothing, contradicting the claimed warning. -/
theorem C2_gone_unmerged_silent :
    classify envGoneUnmerged btrOrigin "wip" "origin" = .remoteGone ∧
    process_branch envGoneUnmerged "wip" "origin" "" btrOrigin "main"
        "refs/remotes/origin/main"
      = ⟨.ok none, [], []⟩ := by
  constructor <;> rfl

/-- Claim C3 counterexample: removing the current branch "topic" (status
RemoteGone, tip an ancestor of the default branch) produces the action trace
whose first action is the checkout onto the default branch and whose second is
the delete, so the delete does not precede the checkout as claimed. -/
theorem C3_counterexample :
    (process_branch envGoneMerged "topic" "origin" "topic" btrTopic "main"
        "refs/remotes/origin/main").actions
      = [GitAction.checkout "main", GitAction.deleteBranch "topic"] ∧
    (process_branch envGoneMerged "topic" "origin" "topic" btrTopic "main"
        "refs/remotes/origin/main").actions.head?
      = some (GitAction.checkout "main") := by
  constructor <;> rfl

/-- Claim C3 as amended: when the branch being removed is the current branch
(`process_branch` returns `Ok(Some nb)`), the checkout onto the default branch
always precedes the delete of that branch, and every branch processed later in
the same run observes the updated current branch `nb` for its own
comparison. -/
theorem C3_checkout_precedes_delete (env : GitEnv) (remote : String)
    (btr : String → Option String)
    (default_branch full_default_branch current_branch local_branch : String)
    (rest : List String) (nb : String)
    (h : (process_branch env local_branch remote current_branch btr default_branch
        full_default_branch).outcome = .ok (some nb)) :
    (process_branch env local_branch remote current_branch btr default_branch
        full_default_branch).actions
      = [GitAction.checkout default_branch, GitAction.deleteBranch local_branch] ∧
    runLoop env remote btr default_branch full_default_branch current_branch
        (local_branch :: rest)
      = Option.map
          (fun p => (⟨local_branch,
              (process_branch env local_branch remote current_branch btr default_branch
                  full_default_branch).outcome,
              (process_branch env local_branch remote current_branch btr default_branch
                  full_default_branch).output,
              (process_branch env local_branch remote current_branch btr default_branch
                  full_default_branch).actions⟩ :: p.1, p.2))
          (runLoop env remote btr default_branch full_default_branch nb rest) := by
  obtain ⟨hnb, hclass, hcur, diff, s, hr, hanc, hs, heq⟩ := process_branch_ok_some h
  constructor
  · rw [heq]
  · rw [runLoop, heq, hnb]
    dsimp only [Option.getD]
    cases runLoop env remote btr default_branch full_default_branch default_branch rest with
    | none => rfl
    | some p => cases p with | mk reports finalCur => rfl

/-- Claim C3 witness: the amended ordering at the concrete removed current
branch "topic". -/
theorem C3_witness :
    (process_branch envGoneMerged "topic" "origin" "topic" btrTopic "main"
        "refs/remotes/origin/main").actions
      = [GitAction.checkout "main", GitAction.deleteBranch "topic"] :=
  (C3_checkout_precedes_delete envGoneMerged "origin" btrTopic "main"
    "refs/remotes/origin/main" "topic" "topic" [] "main" (by rfl)).1

/-- Claim C4, evaluated at a failing input: the current branch "dev" is
strictly behind its remote (fast-forward case) and the fast-forward merge
fails; the code prints the failure error line and then still prints the
"Updated branch" success message, so the success message is not printed only
when the mutating action succeeded. -/
theorem C4_success_message_after_failure :
    process_branch envFFFail "dev" "origin" "dev" btrDev "main"
        "refs/remotes/origin/main"
      = ⟨.ok none,
          ["Error: dev failed to fast forward merge: Failed to fast forward merge ref",
            "Updated branch dev (was 1234567)."],
          [GitAction.fastForwardMerge "refs/remotes/origin/dev"]⟩ := by
  rfl

/-- Claim C5, evaluated against the code: the driver never reads the current
branch from the repository. The tracked current branch starts as the empty
string `initialCurrentBranch`, and whenever the fetch/config/listing setup
steps succeed the run proceeds straight into the loop with that empty string,
for every environment; there is no current-branch query whose detached-state
failure could terminate the run. -/
theorem C5_no_current_branch_read (env : MainEnv) (btr : String → Option String)
    (branches : List String)
    (hf : env.fetchResult = .ok ()) (hc : env.configResult = .ok btr)
    (hb : env.branchesResult = .ok branches) :
    initialCurrentBranch = "" ∧
    mainRun env
      = loopResult (runLoop env.git remoteName btr defaultBranchName fullDefaultBranchName
          "" branches) := by
  refine ⟨rfl, ?_⟩
  unfold mainRun
  rw [hf, hc, hb]
  rfl

/-- Claim C5 witness: a concrete run whose setup succeeds enters the loop with
the empty current branch and ends without any hard error. -/
theorem C5_witness :
    mainRun mainEnvDetached
      = loopResult (runLoop mainEnvDetached.git remoteName (fun _ => none) defaultBranchName
          fullDefaultBranchName "" []) :=
  (C5_no_current_branch_read mainEnvDetached (fun _ => none) [] rfl rfl rfl).2

/-- Claim C6: when the setup steps succeed and the loop completes, every
per-branch error is caught and reported with the branch name and the
underlying cause, the reports cover the whole branch list in order, and the
run result is `ok` regardless of per-branch failures. -/
theorem C6_errors_isolated (env : MainEnv) (btr : String → Option String)
    (branches : List String) (reports : List BranchReport) (finalCur : String)
    (hf : env.fetchResult = .ok ()) (hc : env.configResult = .ok btr)
    (hb : env.branchesResult = .ok branches)
    (hrun : runLoop env.git remoteName btr defaultBranchName fullDefaultBranchName
        initialCurrentBranch branches = some (reports, finalCur)) :
    mainRun env = .ok reports finalCur ∧
    reports.map (fun r => r.branch) = branches ∧
    ∀ r, r ∈ reports → ∀ e, r.outcome = .err e →
      ("Error: " ++ r.branch ++ " failed to process branch: " ++ e) ∈ r.output := by
  obtain ⟨hmap, hprop⟩ := runLoop_reports env.git remoteName btr defaultBranchName
    fullDefaultBranchName branches initialCurrentBranch reports finalCur hrun
  refine ⟨?_, hmap, hprop⟩
  unfold mainRun
  rw [hf, hc, hb]
  dsimp only
  rw [hrun]
  rfl

/-- Claim C6 witness: a concrete run over the branches "bad" and "good" in
which range resolution of "bad" fails with "boom"; the error is reported with
the branch name, "good" is still processed, and the run ends in `ok`. -/
theorem C6_witness :
    mainRun mainEnvLoop
      = .ok
          [⟨"bad", .err "boom", ["Error: bad failed to process branch: boom"], []⟩,
            ⟨"good", .ok none, [], []⟩] "" :=
  (C6_errors_isolated mainEnvLoop (fun _ => none) ["bad", "good"]
    [⟨"bad", .err "boom", ["Error: bad failed to process branch: boom"], []⟩,
      ⟨"good", .ok none, [], []⟩] "" rfl rfl rfl (by rfl)).1

/-- Claim C7: a branch with status `RemoteExists` whose resolved range has
identical local and remote identifiers yields `Ok(None)` with no output and no
mutating action. -/
theorem C7_synced_silent (env : GitEnv) (local_branch remote current_branch : String)
    (btr : String → Option String) (default_branch full_default_branch r a : String)
    (hclass : classify env btr local_branch remote = .remoteExists r)
    (hrange : git_range env ("refs/heads/" ++ local_branch) r = .ok ⟨a, a⟩) :
    process_branch env local_branch remote current_branch btr default_branch
        full_default_branch
      = ⟨.ok none, [], []⟩ := by
  rw [process_branch_remoteExists hclass]
  unfold onRemoteExists
  rw [hrange]
  simp [Range.is_identical]

/-- Claim C7 witness: branch "feature-x", tracked by convention on the sync
remote, resolves identically on both sides and is left silently untouched. -/
theorem C7_witness :
    process_branch envSynced "feature-x" "origin" "" (fun _ => none) "main"
        "refs/remotes/origin/main"
      = ⟨.ok none, [], []⟩ :=
  C7_synced_silent envSynced "feature-x" "origin" "" (fun _ => none) "main"
    "refs/remotes/origin/main" "refs/remotes/origin/feature-x" "dddddddd"
    (by rfl) (by rfl)

/-- Claim C8: in the reached fast-forward case (range resolved, not identical,
ancestor check true) a branch other than the current branch gets exactly the
update-ref action and never fast-forward-merge, and the current branch gets
exactly the fast-forward-merge action and never update-ref. -/
theorem C8_action_choice (env : GitEnv) (local_branch remote current_branch : String)
    (btr : String → Option String) (default_branch full_default_branch r a b : String)
    (hclass : classify env btr local_branch remote = .remoteExists r)
    (hrange : git_range env ("refs/heads/" ++ local_branch) r = .ok ⟨a, b⟩)
    (hne : a ≠ b) (hanc : env.is_ancestor a b = true) :
    (local_branch ≠ current_branch →
      (process_branch env local_branch remote current_branch btr default_branch
          full_default_branch).actions
        = [GitAction.updateRef ("refs/heads/" ++ local_branch) r]) ∧
    (local_branch = current_branch →
      (process_branch env local_branch remote current_branch btr default_branch
          full_default_branch).actions
        = [GitAction.fastForwardMerge r]) := by
  have hid : ¬ (Range.is_identical ⟨a, b⟩ = true) := by
    simp only [Range.is_identical, beq_iff_eq]
    exact hne
  have key : (process_branch env local_branch remote current_branch btr default_branch
        full_default_branch).actions
      = (updateStep env local_branch current_branch ("refs/heads/" ++ local_branch) r).2 := by
    rw [process_branch_remoteExists hclass]
    unfold onRemoteExists
    rw [hrange]
    dsimp only
    rw [if_neg hid, if_pos (show Range.is_ancestor env ⟨a, b⟩ = true from hanc)]
    cases shortId a with
    | none => rfl
    | some s => rfl
  constructor
  · intro hcur
    rw [key, updateStep_actions,
      if_neg (show ¬ ((local_branch == current_branch) = true) by
        simp only [beq_iff_eq]; exact hcur)]
  · intro hcur
    rw [key, updateStep_actions,
      if_pos (show (local_branch == current_branch) = true by
        simp only [beq_iff_eq]; exact hcur)]

/-- Claim C8 witness: branch "feat", strictly behind its remote while "main"
is checked out, receives exactly one update-ref action. -/
theorem C8_witness :
    (process_branch envAhead "feat" "origin" "main" (fun _ => none) "main"
        "refs/remotes/origin/main").actions
      = [GitAction.updateRef "refs/heads/feat" "refs/remotes/origin/feat"] :=
  (C8_action_choice envAhead "feat" "origin" "main" (fun _ => none) "main"
    "refs/remotes/origin/main" "refs/remotes/origin/feat" "eeeeeeee" "ffffffff"
    (by rfl) (by rfl) (by decide) (by rfl)).1 (by decide)

/-- Claim C9: the Updated and Deleted messages slice the resolved local
identifier to its first 7 characters; on either print path a resolved
identifier shorter than 7 characters makes `process_branch` panic instead of
reporting. -/
theorem C9_short_id_panics (env : GitEnv) (local_branch remote current_branch : String)
    (btr : String → Option String) (default_branch full_default_branch a b : String)
    (hshort : a.length < 7) :
    (∀ r, classify env btr local_branch remote = .remoteExists r →
      git_range env ("refs/heads/" ++ local_branch) r = .ok ⟨a, b⟩ → a ≠ b →
      env.is_ancestor a b = true →
      (process_branch env local_branch remote current_branch btr default_branch
          full_default_branch).outcome = .panic) ∧
    (classify env btr local_branch remote = .remoteGone →
      git_range env ("refs/heads/" ++ local_branch) full_default_branch = .ok ⟨a, b⟩ →
      env.is_ancestor a b = true →
      (local_branch = current_branch → env.checkout_ok default_branch = true) →
      env.delete_branch_ok local_branch = true →
      (process_branch env local_branch remote current_branch btr default_branch
          full_default_branch).outcome = .panic) := by
  have hnone : shortId a = none := by
    unfold shortId
    rw [if_neg (by omega)]
  constructor
  · intro r hclass hrange hne hanc
    have hid : ¬ (Range.is_identical ⟨a, b⟩ = true) := by
      simp only [Range.is_identical, beq_iff_eq]
      exact hne
    rw [process_branch_remoteExists hclass]
    unfold onRemoteExists
    rw [hrange]
    dsimp only
    rw [if_neg hid, if_pos (show Range.is_ancestor env ⟨a, b⟩ = true from hanc), hnone]
  · intro hclass hrange hanc hco hdel
    have hgdel : git_delete_branch env local_branch = .ok () := by
      unfold git_delete_branch
      rw [if_pos hdel]
    rw [process_branch_remoteGone hclass]
    unfold onRemoteGone
    rw [hrange]
    dsimp only
    rw [if_pos (show Range.is_ancestor env ⟨a, b⟩ = true from hanc)]
    by_cases hcur : (local_branch == current_branch) = true
    · have hgco : git_checkout env default_branch = .ok () := by
        unfold git_checkout
        rw [if_pos (hco (eq_of_beq hcur))]
      rw [if_pos hcur, hgco]
      dsimp only
      rw [hgdel]
      dsimp only
      rw [hnone]
    · rw [if_neg hcur, hgdel]
      dsimp only
      rw [hnone]

/-- Claim C9 witness: a resolved local identifier of 3 characters reaching the
Updated print path makes `process_branch` panic. -/
theorem C9_witness :
    (process_branch envShort "feat" "origin" "" (fun _ => none) "main"
        "refs/remotes/origin/main").outcome = .panic :=
  (C9_short_id_panics envShort "feat" "origin" "" (fun _ => none) "main"
    "refs/remotes/origin/main" "abc" "defdefdef" (by decide)).1
    "refs/remotes/origin/feat" (by rfl) (by rfl) (by decide) (by rfl)

/-- Claim C10: `process_branch` returns `Ok(Some x)` only when the branch had
status RemoteGone, its tip was an ancestor of the default branch, it was the
current branch, and it was deleted after a checkout (the action trace is the
checkout followed by the delete); `x` is exactly the default branch name, so
the driver's tracked current branch can only ever change to the default branch
name. -/
theorem C10_ok_some_characterization (env : GitEnv)
    (local_branch remote current_branch : String) (btr : String → Option String)
    (default_branch full_default_branch x : String)
    (h : (process_branch env local_branch remote current_branch btr default_branch
        full_default_branch).outcome = .ok (some x)) :
    x = default_branch ∧
    classify env btr local_branch remote = .remoteGone ∧
    local_branch = current_branch ∧
    (∃ diff, git_range env ("refs/heads/" ++ local_branch) full_default_branch = .ok diff ∧
      diff.is_ancestor env = true) ∧
    (process_branch env local_branch remote current_branch btr default_branch
        full_default_branch).actions
      = [GitAction.checkout default_branch, GitAction.deleteBranch local_branch] := by
  obtain ⟨hx, hclass, hcur, diff, s, hr, hanc, hs, heq⟩ := process_branch_ok_some h
  exact ⟨hx, hclass, hcur, ⟨diff, hr, hanc⟩, by rw [heq]⟩

/-- Claim C10 witness: the concrete removed current branch "topic" was indeed
classified RemoteGone. -/
theorem C10_witness :
    classify envGoneMerged btrTopic "topic" "origin" = .remoteGone :=
  (C10_ok_some_characterization envGoneMerged "topic" "origin" "topic" btrTopic "main"
    "refs/remotes/origin/main" "main" (by rfl)).2.1

end GitUp
